import Mathlib

/-!
Verification development for the `llm-service` repository.

The Python source is shallowly embedded: pydantic models become Lean
structures, the async repository methods become pure functions (the single
`await` suspension at the transport boundary is modelled by passing the
transport collaborator as a function argument), and raised exceptions become
`Except` errors.  Python floats are modelled as `Rat` (no claim depends on
floating-point rounding) and `bytes` as `List Nat`.  Each dispatcher method
additionally returns the ordered list of collaborator events it performed, so
that statements of the form "the transport collaborator is never invoked" are
expressible.
-/

namespace LLM

/-! ## Universal model (`src/models/base.py`) -/

/-- `ContentType` enum from `models/base.py`. -/
inductive ContentType where
  | text
  | image
  | pdf
  | video
  | audio
deriving DecidableEq, Repr

/-- `Role` enum from `models/base.py`. -/
inductive Role where
  | system
  | user
  | assistant
  | function
deriving DecidableEq, Repr

/-- Python-value universe for `dict[str, Any]` payloads (used by
`FunctionCall.arguments`, `ResponseMetadata.raw_response` and by
`utils/logging.py`'s masking helper). -/
inductive PyVal where
  | str (s : String)
  | int (n : Int)
  | float (q : Rat)
  | bool (b : Bool)
  | none
  | dict (entries : List (String × PyVal))
  | list (xs : List PyVal)

/-- `MediaSource` from `models/base.py`: type, mime type and the three
optional source fields.  The source declares no pydantic validator for this
model; the only comment says "One of the following should be provided". -/
structure MediaSource where
  type : ContentType
  mime_type : String
  data : Option String := Option.none
  url : Option String := Option.none
  path : Option String := Option.none
deriving DecidableEq, Repr

/-- `Content` from `models/base.py`. -/
structure Content where
  type : ContentType
  text : Option String := Option.none
  media : Option MediaSource := Option.none
deriving DecidableEq, Repr

/-- `FunctionCall` from `models/base.py` (`arguments`/`response` are
`dict[str, Any]` payloads). -/
structure FunctionCall where
  name : String
  arguments : List (String × PyVal)
  response : Option (List (String × PyVal)) := Option.none

/-- `Message` from `models/base.py` (the `Function` declarations in
`GenerationConfig.functions` are kept opaque as name/description pairs since
no claim inspects parameter schemas). -/
structure Message where
  role : Role
  content : List Content
  name : Option String := Option.none
  function_call : Option FunctionCall := Option.none

/-- `GenerationConfig` from `models/base.py`. -/
structure GenerationConfig where
  temperature : Option Rat := Option.none
  top_p : Option Rat := Option.none
  top_k : Option Int := Option.none
  max_tokens : Option Int := Option.none
  stop : Option (List String) := Option.none
  stream : Bool := false
  functions : Option (List (String × String)) := Option.none
  force_function : Option String := Option.none
  response_format : String := "text"

/-- `ChatRequest` from `models/base.py`. -/
structure ChatRequest where
  model : String
  messages : List Message
  config : GenerationConfig := {}

/-- `Usage` from `models/base.py`: each counter is independently optional. -/
structure Usage where
  prompt_tokens : Option Int := Option.none
  completion_tokens : Option Int := Option.none
  total_tokens : Option Int := Option.none
  audio_duration : Option Rat := Option.none
  total_dimensions : Option Int := Option.none
deriving DecidableEq, Repr

/-- `ResponseMetadata` from `models/base.py`. -/
structure ResponseMetadata where
  model : String
  usage : Option Usage := Option.none
  finish_reason : Option String := Option.none
  raw_response : Option (List (String × PyVal)) := Option.none

/-- `ChatResponse` from `models/base.py`. -/
structure ChatResponse where
  id : String
  content : List Content
  function_calls : Option (List FunctionCall) := Option.none
  metadata : ResponseMetadata

/-- `ChatStreamResponse` from `models/base.py`: one delta which is either a
`Content` fragment or a `FunctionCall` fragment, plus optional metadata and
the `done` flag. -/
structure ChatStreamResponse where
  id : String
  delta : Content ⊕ FunctionCall
  metadata : Option ResponseMetadata := Option.none
  done : Bool := false

/-- `EmbeddingRequest` from `models/base.py` (`input` is `list[str | Content]`). -/
structure EmbeddingRequest where
  model : String
  input : List (String ⊕ Content)
  encoding_format : String := "float"

/-- `EmbeddingData` from `models/base.py`. -/
structure EmbeddingData where
  index : Int
  embedding : List Rat
  object : String := "embedding"

/-- `EmbeddingResponse` from `models/base.py`. -/
structure EmbeddingResponse where
  id : String
  data : List EmbeddingData
  model : String
  object : String := "list"
  usage : Usage

/-- `Voice` enum from `models/base.py`. -/
inductive Voice where
  | male_1
  | male_2
  | female_1
  | female_2
  | neutral
deriving DecidableEq, Repr

/-- `AudioFormat` enum from `models/base.py`. -/
inductive AudioFormat where
  | mp3
  | wav
  | ogg
  | flac
deriving DecidableEq, Repr

/-- `SpeechRequest` from `models/base.py`. -/
structure SpeechRequest where
  model : String
  input : String
  voice : Voice
  format : AudioFormat := AudioFormat.mp3
  speed : Rat := 1
  pitch : Option Rat := Option.none
  volume : Option Rat := Option.none

/-- `SpeechResponse` from `models/base.py` (`audio : bytes` modelled as a
list of byte values). -/
structure SpeechResponse where
  id : String
  audio : List Nat
  duration : Rat
  format : AudioFormat
  metadata : ResponseMetadata

/-! ## Error taxonomy (`src/exceptions.py`)

The taxonomy is a class hierarchy rooted at `LLMError`; the shallow embedding
tags each subclass.  Python exceptions that are *not* part of the taxonomy but
are raised by the source (`ValueError` in `repositories/base.py`,
`NotImplementedError` in `services/llm.py`) and opaque transport/vendor
exceptions get their own constructors, so that "an error of the `LLMError`
taxonomy" is expressible as a predicate on the raised value. -/

/-- The subclasses of `LLMError` in `src/exceptions.py`, as flat tags. -/
inductive LLMErrorKind where
  | base
  | provider
  | validation
  | unsupportedOperation
  | configuration
  | rateLimit
  | authentication
  | quotaExceeded
  | invalidRequest
  | contextLengthExceeded
deriving DecidableEq, Repr

/-- The constructor payload of `LLMError` (`message`, `provider`, optional
`code`; the `raw_error` reference is carried on `Exc.llm` below). -/
structure LLMErrorData where
  message : String
  provider : String
  code : Option String := Option.none
deriving DecidableEq, Repr

/-- A raised Python exception, as observed at the dispatcher boundary. -/
inductive Exc where
  /-- An `LLMError` (or subclass) with its tag and payload (the optional
  `raw_error` reference is not modelled; no claim inspects it). -/
  | llm (kind : LLMErrorKind) (data : LLMErrorData)
  /-- Builtin `ValueError`, carrying the argument it was raised with
  (`repositories/base.py` raises `ValueError(errors)`). -/
  | valueError (errors : List String)
  /-- Builtin `NotImplementedError` (`services/llm.py`). -/
  | notImplemented (msg : String)
  /-- Builtin `TypeError` (raised by CPython itself, e.g. by an `isinstance`
  check against a `typing.Protocol` that is not `@runtime_checkable`). -/
  | typeError (msg : String)
  /-- An opaque transport/vendor exception (anything `fetch.make_request`
  or a response converter may raise). -/
  | transportFailure (tag : String)
deriving DecidableEq, Repr

/-- Whether a raised exception belongs to the `LLMError` taxonomy of
`src/exceptions.py`. -/
def Exc.isLLMError : Exc → Bool
  | .llm _ _ => true
  | _ => false

/-- Whether a raised exception is a `ConfigurationError`. -/
def Exc.isConfigurationError : Exc → Bool
  | .llm LLMErrorKind.configuration _ => true
  | _ => false

/-- The message of the `TypeError` CPython raises when `isinstance` is used
with a `typing.Protocol` that is not decorated `@runtime_checkable` — which
is the case for every Protocol in `src/models/capabilities.py`. -/
def runtimeCheckableTypeErrorMsg : String :=
  "Instance and class checks can only be used with @runtime_checkable protocols"

/-! ## `mask_sensitive_data` (`src/utils/logging.py`) -/

/-- `SENSITIVE_FIELDS` from `utils/logging.py`. -/
def SENSITIVE_FIELDS : List String :=
  ["api_key", "key", "token", "password", "secret"]

/-- Python's `str.lower()` on a key, embedded character-wise (all keys the
helper compares are ASCII, where `Char.toLower` agrees with `str.lower()`). -/
def pyLower (s : String) : String :=
  ⟨s.data.map Char.toLower⟩

/-- Whether a dictionary key is masked: `k.lower() in SENSITIVE_FIELDS`. -/
def isSensitiveKey (k : String) : Bool :=
  SENSITIVE_FIELDS.contains (pyLower k)

mutual

/-- The inner `_mask_dict` of `mask_sensitive_data`: for every entry `(k, v)`
keep the key and take `'***'` if the lowercased key is sensitive, else recurse
when the value is a dict, else keep the value (lists are left untouched). -/
def maskEntries : List (String × PyVal) → List (String × PyVal)
  | [] => []
  | (k, v) :: rest =>
    (k, if isSensitiveKey k then PyVal.str "***" else maskValue v) :: maskEntries rest

/-- The `elif isinstance(v, dict)` branch of `_mask_dict`'s comprehension. -/
def maskValue : PyVal → PyVal
  | .dict d => .dict (maskEntries d)
  | v => v

end

/-- `mask_sensitive_data` from `utils/logging.py`. -/
def mask_sensitive_data (data : List (String × PyVal)) : List (String × PyVal) :=
  maskEntries data

/-- First-match key lookup in a dict's entry list (Python dict keys are
unique; the embedding uses the first occurrence). -/
def lookupKey : List (String × PyVal) → String → Option PyVal
  | [], _ => Option.none
  | (k, v) :: rest, key => if k = key then some v else lookupKey rest key

/-- Path lookup through directly nested dictionaries: `getPath d [k1, k2]`
descends through the dict value at `k1` and returns the value at `k2`. -/
def getPath (d : List (String × PyVal)) : List String → Option PyVal
  | [] => some (PyVal.dict d)
  | k :: ks =>
    match lookupKey d k, ks with
    | some v, [] => some v
    | some (PyVal.dict d2), _ => getPath d2 ks
    | _, _ => Option.none

/-! ## Pydantic validation of `MediaSource`

`MediaSource` in `models/base.py` sets `model_config = {"extra": "forbid"}`
and declares no custom validator, so constructing it from an input dict checks
only: `type` is a valid `ContentType` value, `mime_type` is a string, each of
`data`/`url`/`path` is a string or absent/None, and no extra key is present.
Nothing relates the three optional source fields to each other. -/

/-- Parse a `ContentType` enum value from its string representation
(pydantic accepts the enum's string value). -/
def ContentType.parse : String → Option ContentType
  | "text" => some ContentType.text
  | "image" => some ContentType.image
  | "pdf" => some ContentType.pdf
  | "video" => some ContentType.video
  | "audio" => some ContentType.audio
  | _ => Option.none

/-- Field names declared by the `MediaSource` model. -/
def mediaSourceFields : List String :=
  ["type", "mime_type", "data", "url", "path"]

/-- Validate one optional `str | None` field of `MediaSource`. -/
def pyOptStr (d : List (String × PyVal)) (field : String) :
    Except (List String) (Option String) :=
  match lookupKey d field with
  | Option.none => Except.ok Option.none
  | some PyVal.none => Except.ok Option.none
  | some (PyVal.str s) => Except.ok (some s)
  | some _ => Except.error [field ++ ": string_type"]

/-- Pydantic model validation of `MediaSource` from an input dict: field-type
checks plus `extra: forbid`, exactly as the model in `models/base.py`
declares — and nothing else, since the model has no validator. -/
def MediaSource.model_validate (d : List (String × PyVal)) :
    Except (List String) MediaSource :=
  if (d.map Prod.fst).all (fun k => mediaSourceFields.contains k) then
    match lookupKey d "type" with
    | some (PyVal.str ty) =>
      match ContentType.parse ty with
      | some type =>
        match lookupKey d "mime_type" with
        | some (PyVal.str mime_type) =>
          match pyOptStr d "data" with
          | Except.error e => Except.error e
          | Except.ok data =>
            match pyOptStr d "url" with
            | Except.error e => Except.error e
            | Except.ok url =>
              match pyOptStr d "path" with
              | Except.error e => Except.error e
              | Except.ok path =>
                Except.ok { type, mime_type, data, url, path }
        | _ => Except.error ["mime_type: string_type"]
      | Option.none => Except.error ["type: enum"]
    | _ => Except.error ["type: enum"]
  else
    Except.error ["extra_forbidden"]

/-- How many of the three source fields of a `MediaSource` are set. -/
def MediaSource.sourcesSet (m : MediaSource) : Nat :=
  (if m.data.isSome then 1 else 0) + (if m.url.isSome then 1 else 0) +
    (if m.path.isSome then 1 else 0)

/-! ## Capability contract (`src/models/capabilities.py`)

Each `typing.Protocol` becomes a structure of pure functions, polymorphic in
the provider-native request type `Native` and raw response type `Raw`.  The
`async` operations are embedded as pure functions; operations that may raise
return `Except Exc`.  None of the Protocols is decorated
`@runtime_checkable`, so an `isinstance` check against any of them raises
`TypeError` at runtime — this matters for the dispatchers of
`repositories/base_new.py` and `repositories/gemini.py` below. -/

/-- `ChatProvider` protocol: the adapter operations the chat dispatcher
uses. -/
structure ChatProviderModel (Native Raw : Type) where
  validate_chat_request : ChatRequest → List String
  convert_chat_request : ChatRequest → Native
  convert_chat_response : Raw → ChatRequest → Except Exc ChatResponse
  convert_error : Exc → Exc

/-- `EmbeddingProvider` protocol. -/
structure EmbeddingProviderModel (Native Raw : Type) where
  validate_embedding_request : EmbeddingRequest → List String
  convert_embedding_request : EmbeddingRequest → Native
  convert_embedding_response : Raw → EmbeddingRequest → Except Exc EmbeddingResponse
  convert_error : Exc → Exc

/-- `SpeechProvider` protocol. -/
structure SpeechProviderModel (Native Raw : Type) where
  validate_speech_request : SpeechRequest → List String
  convert_speech_request : SpeechRequest → Native
  convert_speech_response : Raw → SpeechRequest → Except Exc SpeechResponse
  convert_error : Exc → Exc

/-! ## Transport collaborator and event traces -/

/-- One invocation of `fetch.make_request`: the dispatcher supplies url,
method, headers, optional query params and the provider-native body. -/
structure CallRecord (Native : Type) where
  url : String
  method : String
  headers : List (String × String)
  params : List (String × String)
  body : Native

/-- The transport collaborator: may return a raw response or raise. -/
def Transport (Native Raw : Type) : Type :=
  CallRecord Native → Except Exc Raw

/-- Collaborator events a dispatcher call performs, in order. -/
inductive Event where
  /-- `self._validate_configuration()` was executed. -/
  | configCheck
  /-- the `isinstance(self.provider, ...)` capability check was executed
  (in the source this check itself raises `TypeError`, since the capability
  Protocols are not `@runtime_checkable`). -/
  | instanceCheck
  /-- the adapter's `validate_*_request` was invoked. -/
  | validateCall
  /-- the adapter's `convert_*_request` was invoked. -/
  | convertRequest
  /-- `fetch.make_request` was invoked with this url/headers/params. -/
  | transportCall (url : String) (headers : List (String × String))
      (params : List (String × String))
  /-- the adapter's `convert_*_response` was invoked. -/
  | convertResponse
  /-- the adapter's `convert_error` was invoked. -/
  | convertErrorCall
deriving DecidableEq, Repr

/-- Whether an event is a transport invocation. -/
def Event.isTransportCall : Event → Bool
  | .transportCall _ _ _ => true
  | _ => false

/-! ## Shared repository pieces (`BaseLLMRepository`) -/

/-- Python truthiness of the `api_key` attribute (`str | None`): `None` and
the empty string are falsy. -/
def apiKeyFalsy : Option String → Bool
  | Option.none => true
  | some s => s.isEmpty

/-- `BaseLLMRepository._validate_configuration` (identical in
`repositories/base.py` and `repositories/base_new.py`): raise
`ConfigurationError` when `not self.api_key`. -/
def validate_configuration (api_key : Option String) (provider_name : String) :
    Except Exc Unit :=
  if apiKeyFalsy api_key then
    Except.error (Exc.llm LLMErrorKind.configuration
      { message := "API key not configured for " ++ provider_name
        provider := provider_name })
  else
    Except.ok ()

/-- The class attributes a concrete repository subclass supplies: `base_url`,
`provider_name` and the result of `self._get_headers()`. -/
structure ProviderConfig where
  base_url : String
  provider_name : String
  headers : List (String × String)

/-! ## The non-validating dispatcher variant (`src/repositories/base.py`)

Its `ChatRepository.__init__` stores only the adapter — it does not call
`super().__init__`, so the `api_key` attribute is never set — and its
`complete` performs no configuration check and raises a plain
`ValueError(errors)` on a non-empty validation result. -/

namespace base

/-- `ChatRepository` instance state from `repositories/base.py`: the adapter,
plus the `api_key` attribute slot (`none` = attribute absent). -/
structure ChatRepository (Native Raw : Type) where
  provider : ChatProviderModel Native Raw
  api_key : Option String := Option.none

/-- `ChatRepository.__init__(self, provider)` from `repositories/base.py`:
`self.provider = provider` and nothing else (no `super().__init__` call, so
no API-key lookup and no `api_key` attribute). -/
def ChatRepository.init {Native Raw : Type} (provider : ChatProviderModel Native Raw) :
    ChatRepository Native Raw :=
  { provider, api_key := Option.none }

/-- `ChatRepository.complete` from `repositories/base.py`. -/
def ChatRepository.complete {Native Raw : Type} (self : ChatRepository Native Raw)
    (cfg : ProviderConfig) (t : Transport Native Raw) (request : ChatRequest) :
    Except Exc ChatResponse × List Event :=
  let errors := self.provider.validate_chat_request request
  if !errors.isEmpty then
    (Except.error (Exc.valueError errors), [Event.validateCall])
  else
    let provider_request := self.provider.convert_chat_request request
    let url := cfg.base_url ++ "/v1/chat/completions"
    match t { url, method := "POST", headers := cfg.headers, params := [],
              body := provider_request } with
    | Except.error e =>
      (Except.error (self.provider.convert_error e),
        [Event.validateCall, Event.convertRequest,
         Event.transportCall url cfg.headers [], Event.convertErrorCall])
    | Except.ok raw_response =>
      match self.provider.convert_chat_response raw_response request with
      | Except.error e =>
        (Except.error (self.provider.convert_error e),
          [Event.validateCall, Event.convertRequest,
           Event.transportCall url cfg.headers [], Event.convertResponse,
           Event.convertErrorCall])
      | Except.ok response =>
        (Except.ok response,
          [Event.validateCall, Event.convertRequest,
           Event.transportCall url cfg.headers [], Event.convertResponse])

/-- `EmbeddingRepository` instance state from `repositories/base.py`. -/
structure EmbeddingRepository (Native Raw : Type) where
  provider : EmbeddingProviderModel Native Raw
  api_key : Option String := Option.none

/-- `EmbeddingRepository.embed` from `repositories/base.py`. -/
def EmbeddingRepository.embed {Native Raw : Type} (self : EmbeddingRepository Native Raw)
    (cfg : ProviderConfig) (t : Transport Native Raw) (request : EmbeddingRequest) :
    Except Exc EmbeddingResponse × List Event :=
  let errors := self.provider.validate_embedding_request request
  if !errors.isEmpty then
    (Except.error (Exc.valueError errors), [Event.validateCall])
  else
    let provider_request := self.provider.convert_embedding_request request
    let url := cfg.base_url ++ "/v1/embeddings"
    match t { url, method := "POST", headers := cfg.headers, params := [],
              body := provider_request } with
    | Except.error e =>
      (Except.error (self.provider.convert_error e),
        [Event.validateCall, Event.convertRequest,
         Event.transportCall url cfg.headers [], Event.convertErrorCall])
    | Except.ok raw_response =>
      match self.provider.convert_embedding_response raw_response request with
      | Except.error e =>
        (Except.error (self.provider.convert_error e),
          [Event.validateCall, Event.convertRequest,
           Event.transportCall url cfg.headers [], Event.convertResponse,
           Event.convertErrorCall])
      | Except.ok response =>
        (Except.ok response,
          [Event.validateCall, Event.convertRequest,
           Event.transportCall url cfg.headers [], Event.convertResponse])

/-- `SpeechRepository` instance state from `repositories/base.py`. -/
structure SpeechRepository (Native Raw : Type) where
  provider : SpeechProviderModel Native Raw
  api_key : Option String := Option.none

/-- `SpeechRepository.synthesize` from `repositories/base.py`. -/
def SpeechRepository.synthesize {Native Raw : Type} (self : SpeechRepository Native Raw)
    (cfg : ProviderConfig) (t : Transport Native Raw) (request : SpeechRequest) :
    Except Exc SpeechResponse × List Event :=
  let errors := self.provider.validate_speech_request request
  if !errors.isEmpty then
    (Except.error (Exc.valueError errors), [Event.validateCall])
  else
    let provider_request := self.provider.convert_speech_request request
    let url := cfg.base_url ++ "/v1/audio/speech"
    match t { url, method := "POST", headers := cfg.headers, params := [],
              body := provider_request } with
    | Except.error e =>
      (Except.error (self.provider.convert_error e),
        [Event.validateCall, Event.convertRequest,
         Event.transportCall url cfg.headers [], Event.convertErrorCall])
    | Except.ok raw_response =>
      match self.provider.convert_speech_response raw_response request with
      | Except.error e =>
        (Except.error (self.provider.convert_error e),
          [Event.validateCall, Event.convertRequest,
           Event.transportCall url cfg.headers [], Event.convertResponse,
           Event.convertErrorCall])
      | Except.ok response =>
        (Except.ok response,
          [Event.validateCall, Event.convertRequest,
           Event.transportCall url cfg.headers [], Event.convertResponse])

end base

/-! ## The validating/logging dispatcher variant
(`src/repositories/base_new.py`)

Here `__init__` runs `super().__init__(api_key)` (so `self.api_key` is set),
and each operation first runs `self._validate_configuration()` and then
evaluates `isinstance(self.provider, capabilities.ChatProvider)` (lines 73,
124, 175).  The capability Protocols are **not** `@runtime_checkable`, so
this `isinstance` call itself raises
`TypeError("Instance and class checks can only be used with @runtime_checkable protocols")`
on every call that passes the configuration check — whatever the provider is.
Everything after that line (adapter validation, the `ValidationError` raise,
request conversion, the transport call and `convert_error`) is unreachable
dead code, and is therefore absent from the embedded method bodies below.

The `@logging_utils.log_operation` decorator is transparent on these paths:
called positionally (`complete(request)`), its wrapper skips the request log
(`kwargs.get('request')` is `None`), enters `RequestLogger`, and re-raises
the exception unchanged; its own success-path defect (the decorator's boolean
parameters shadow the module-level `log_request`/`log_response` functions, so
a successful return would call a `bool`) is unreachable here because the
wrapped methods always raise.  A keyword invocation (`complete(request=r)`)
would raise that shadowing `TypeError` even before the configuration check;
the embedding models the positional convention. -/

namespace base_new

/-- `ChatRepository` instance state from `repositories/base_new.py`. -/
structure ChatRepository (Native Raw : Type) where
  provider : ChatProviderModel Native Raw
  api_key : Option String

/-- `ChatRepository.complete` from `repositories/base_new.py`: the
configuration check, then the `isinstance` capability check at line 73, which
itself raises `TypeError` (non-`@runtime_checkable` Protocol).  The adapter
validation, `ValidationError` raise, conversion, transport call and
`convert_error` of lines 79–98 are unreachable. -/
def ChatRepository.complete {Native Raw : Type} (self : ChatRepository Native Raw)
    (cfg : ProviderConfig) (t : Transport Native Raw) (request : ChatRequest) :
    Except Exc ChatResponse × List Event :=
  match validate_configuration self.api_key cfg.provider_name with
  | Except.error e => (Except.error e, [Event.configCheck])
  | Except.ok _ =>
    (Except.error (Exc.typeError runtimeCheckableTypeErrorMsg),
     [Event.configCheck, Event.instanceCheck])

/-- `EmbeddingRepository` instance state from `repositories/base_new.py`. -/
structure EmbeddingRepository (Native Raw : Type) where
  provider : EmbeddingProviderModel Native Raw
  api_key : Option String

/-- `EmbeddingRepository.embed` from `repositories/base_new.py`: the
configuration check, then the `isinstance` capability check at line 124,
which itself raises `TypeError` (non-`@runtime_checkable` Protocol); the
remainder of the method is unreachable. -/
def EmbeddingRepository.embed {Native Raw : Type} (self : EmbeddingRepository Native Raw)
    (cfg : ProviderConfig) (t : Transport Native Raw) (request : EmbeddingRequest) :
    Except Exc EmbeddingResponse × List Event :=
  match validate_configuration self.api_key cfg.provider_name with
  | Except.error e => (Except.error e, [Event.configCheck])
  | Except.ok _ =>
    (Except.error (Exc.typeError runtimeCheckableTypeErrorMsg),
     [Event.configCheck, Event.instanceCheck])

/-- `SpeechRepository` instance state from `repositories/base_new.py`. -/
structure SpeechRepository (Native Raw : Type) where
  provider : SpeechProviderModel Native Raw
  api_key : Option String

/-- `SpeechRepository.synthesize` from `repositories/base_new.py`: the
configuration check, then the `isinstance` capability check at line 175,
which itself raises `TypeError` (non-`@runtime_checkable` Protocol); the
remainder of the method is unreachable. -/
def SpeechRepository.synthesize {Native Raw : Type} (self : SpeechRepository Native Raw)
    (cfg : ProviderConfig) (t : Transport Native Raw) (request : SpeechRequest) :
    Except Exc SpeechResponse × List Event :=
  match validate_configuration self.api_key cfg.provider_name with
  | Except.error e => (Except.error e, [Event.configCheck])
  | Except.ok _ =>
    (Except.error (Exc.typeError runtimeCheckableTypeErrorMsg),
     [Event.configCheck, Event.instanceCheck])

end base_new

/-! ## The Gemini dispatcher (`src/repositories/gemini.py`)

`GeminiBaseMixin` fixes `provider_name = "gemini"`,
`base_url = "https://generativelanguage.googleapis.com"` and headers
containing only `Content-Type`.  Two defects keep the written dispatch
pipeline from ever running:

* the module never imports `utils.logging` (`logging_utils`), `models.base`
  (`base`), `models.capabilities` (`capabilities`), `utils.fetch` (`fetch`),
  `ValidationError` or `ConfigurationError`, so executing the module raises
  `NameError` at the `@logging_utils.log_operation(...)` line of the class
  body and the classes never come into existence;
* granting the imports, `GeminiChatRepository.complete` runs the
  configuration check and then `isinstance(self.provider,
  capabilities.ChatProvider)` (line 49), which raises `TypeError` on every
  call because the Protocol is not `@runtime_checkable` — so the
  `{version}/models/{model}:generateContent` URL construction, the `key`
  query parameter and the transport call (lines 64–72) are dead code.

The definitions below model the class body as written, granting the imports;
the `NameError` import failure is a module-level fact noted above. -/

namespace gemini

/-- `GeminiBaseMixin.provider_name`. -/
def provider_name : String := "gemini"

/-- `GeminiBaseMixin.base_url`. -/
def base_url : String := "https://generativelanguage.googleapis.com"

/-- `GeminiBaseMixin._get_headers()`: only `Content-Type`. -/
def get_headers : List (String × String) :=
  [("Content-Type", "application/json")]

/-- `GeminiChatRepository` instance state: adapter, `api_key` (set by
`GeminiBaseMixin.__init__` via `super().__init__`) and `version`. -/
structure GeminiChatRepository (Native Raw : Type) where
  provider : ChatProviderModel Native Raw
  api_key : Option String
  version : String

/-- `GeminiChatRepository.complete` from `repositories/gemini.py`, granting
the module its missing imports: the configuration check, then the
`isinstance` capability check at line 49, which itself raises `TypeError`
(non-`@runtime_checkable` Protocol); validation, the
`{version}/models/{model}:generateContent` URL construction, the `key` query
parameter and the transport call of lines 53–79 are unreachable. -/
def GeminiChatRepository.complete {Native Raw : Type}
    (self : GeminiChatRepository Native Raw) (t : Transport Native Raw)
    (request : ChatRequest) : Except Exc ChatResponse × List Event :=
  match validate_configuration self.api_key provider_name with
  | Except.error e => (Except.error e, [Event.configCheck])
  | Except.ok _ =>
    (Except.error (Exc.typeError runtimeCheckableTypeErrorMsg),
     [Event.configCheck, Event.instanceCheck])

end gemini

/-! ## The service facade (`src/services/llm.py`)

`LLMService` stores up to three optional repositories (imported from
`repositories.base`).  A constructed repository is modelled by its dispatch
closure: request to result plus event trace.  A missing repository makes the
corresponding method raise the builtin `NotImplementedError`. -/

/-- `LLMService` from `services/llm.py`. -/
structure LLMService where
  chat_repo : Option (ChatRequest → Except Exc ChatResponse × List Event) :=
    Option.none
  embedding_repo :
    Option (EmbeddingRequest → Except Exc EmbeddingResponse × List Event) :=
    Option.none
  speech_repo :
    Option (SpeechRequest → Except Exc SpeechResponse × List Event) :=
    Option.none

/-- `LLMService.complete`: `if not self.chat_repo: raise NotImplementedError(
"Chat completion not supported")`, else delegate. -/
def LLMService.complete (self : LLMService) (request : ChatRequest) :
    Except Exc ChatResponse × List Event :=
  match self.chat_repo with
  | Option.none =>
    (Except.error (Exc.notImplemented "Chat completion not supported"), [])
  | some repo => repo request

/-- `LLMService.embed`. -/
def LLMService.embed (self : LLMService) (request : EmbeddingRequest) :
    Except Exc EmbeddingResponse × List Event :=
  match self.embedding_repo with
  | Option.none =>
    (Except.error (Exc.notImplemented "Embeddings not supported"), [])
  | some repo => repo request

/-- `LLMService.synthesize`. -/
def LLMService.synthesize (self : LLMService) (request : SpeechRequest) :
    Except Exc SpeechResponse × List Event :=
  match self.speech_repo with
  | Option.none =>
    (Except.error (Exc.notImplemented "Speech synthesis not supported"), [])
  | some repo => repo request

/-! ## Stream Reconstructor -/

/-- Modelled from the spec: the repository ships only the
`ChatStreamResponse` chunk model (`models/base.py`); the Stream Reconstructor
component described in spec section 4.4 has no implementation under `src/`.
Accumulator state: text deltas concatenated in arrival order (the universal
chunk carries a single delta and no content index, so one text stream is
accumulated), function-call deltas collected in order, `Usage` taken from the
final chunk that reports it, and the `done` flag. -/
structure ReconState where
  id : String
  text : String := ""
  calls : List FunctionCall := []
  usage : Option Usage := Option.none
  meta : Option ResponseMetadata := Option.none
  done : Bool := false

/-- The text delta a single chunk contributes: the text of a `Content` delta
(empty when absent), nothing for a function-call delta. -/
def chunkTextDelta (c : ChatStreamResponse) : String :=
  match c.delta with
  | Sum.inl content => content.text.getD ""
  | Sum.inr _ => ""

/-- The function-call delta a single chunk contributes. -/
def chunkCallDelta (c : ChatStreamResponse) : List FunctionCall :=
  match c.delta with
  | Sum.inl _ => []
  | Sum.inr call => [call]

/-- The `Usage` reported by a single chunk's metadata, if any. -/
def chunkUsage (c : ChatStreamResponse) : Option Usage :=
  match c.metadata with
  | some m => m.usage
  | Option.none => Option.none

/-- Last-writer-wins merge of reported usages: the right operand overrides
the left when present. -/
def usageMerge (a b : Option Usage) : Option Usage :=
  match b with
  | some u => some u
  | Option.none => a

/-- Modelled from the spec (section 4.4): fold one `ChatStreamResponse` into
the accumulator — text deltas are appended in arrival order, function-call
deltas are collected in order, the usage of the latest chunk reporting one
wins.  A terminal chunk arriving after `done = true` is a protocol violation
reported as a Provider-class error, not merged twice. -/
def reconStep (s : ReconState) (c : ChatStreamResponse) : Except Exc ReconState :=
  if s.done && c.done then
    Except.error (Exc.llm LLMErrorKind.provider
      { message := "duplicate terminal chunk", provider := "stream" })
  else
    Except.ok
      { s with
        text := s.text ++ chunkTextDelta c
        calls := s.calls ++ chunkCallDelta c
        usage := usageMerge s.usage (chunkUsage c)
        meta := (match c.metadata with | some m => some m | Option.none => s.meta)
        done := s.done || c.done }

/-- Modelled from the spec: fold a chunk list through `reconStep`. -/
def reconFoldM (s : ReconState) : List ChatStreamResponse → Except Exc ReconState
  | [] => Except.ok s
  | c :: cs =>
    match reconStep s c with
    | Except.error e => Except.error e
    | Except.ok s2 => reconFoldM s2 cs

/-- Modelled from the spec: package the accumulator as a `ChatResponse`
comparable to a non-streaming response. -/
def reconFinish (s : ReconState) : ChatResponse :=
  { id := s.id
    content := [{ type := ContentType.text, text := some s.text }]
    function_calls := if s.calls.isEmpty then Option.none else some s.calls
    metadata :=
      match s.meta with
      | some m => { m with usage := s.usage }
      | Option.none => { model := "", usage := s.usage } }

/-- Modelled from the spec: the Stream Reconstructor's fold over the ordered
chunk sequence emitted for one request. -/
def reconstruct (id : String) (cs : List ChatStreamResponse) :
    Except Exc ChatResponse :=
  match reconFoldM { id } cs with
  | Except.error e => Except.error e
  | Except.ok s => Except.ok (reconFinish s)

/-- Concatenated text deltas of a chunk sequence, in arrival order. -/
def chunksText (cs : List ChatStreamResponse) : String :=
  cs.foldl (fun acc c => acc ++ chunkTextDelta c) ""

/-- The `Usage` of the final chunk that reports one. -/
def chunksUsage (cs : List ChatStreamResponse) : Option Usage :=
  cs.foldl (fun acc c => usageMerge acc (chunkUsage c)) Option.none

/-- Concatenated text of a `ChatResponse`'s content parts. -/
def responseText (r : ChatResponse) : String :=
  r.content.foldl (fun acc c => acc ++ c.text.getD "") ""

/-- The `Usage` of a `ChatResponse`. -/
def responseUsage (r : ChatResponse) : Option Usage :=
  r.metadata.usage

/-! ## Concrete fixtures used by witnesses and counterexamples -/

/-- A sample usage record. -/
def sampleUsage : Usage := { total_tokens := some 5 }

/-- A sample response metadata record. -/
def sampleMetadata : ResponseMetadata := { model := "m1", usage := some sampleUsage }

/-- A sample universal chat response. -/
def sampleResponse : ChatResponse :=
  { id := "r1"
    content := [{ type := ContentType.text, text := some "hello" }]
    metadata := sampleMetadata }

/-- A sample universal chat request (`{model:"m1", messages:[user "hi"]}`). -/
def sampleRequest : ChatRequest :=
  { model := "m1"
    messages :=
      [{ role := Role.user
         content := [{ type := ContentType.text, text := some "hi" }] }] }

/-- The error a sample adapter's `map-error` produces. -/
def mappedProviderError : Exc :=
  Exc.llm LLMErrorKind.provider { message := "mapped", provider := "p" }

/-- A sample adapter that accepts every request. -/
def okChatProvider : ChatProviderModel String String :=
  { validate_chat_request := fun _ => []
    convert_chat_request := fun r => r.model
    convert_chat_response := fun _ _ => Except.ok sampleResponse
    convert_error := fun _ => mappedProviderError }

/-- A sample adapter that rejects every request with one problem string. -/
def badChatProvider : ChatProviderModel String String :=
  { okChatProvider with validate_chat_request := fun _ => ["boom"] }

/-- A transport collaborator that always raises the given exception. -/
def failTransport (e : Exc) : Transport String String := fun _ => Except.error e

/-- A transport collaborator that always returns the raw response `"raw"`. -/
def okTransport : Transport String String := fun _ => Except.ok "raw"

/-- A sample subclass configuration. -/
def cfg0 : ProviderConfig :=
  { base_url := "https://api.example"
    provider_name := "p"
    headers := [("Content-Type", "application/json")] }

/-- A sample universal embedding request. -/
def sampleEmbeddingRequest : EmbeddingRequest :=
  { model := "e1", input := [Sum.inl "hi"] }

/-- A sample universal embedding response. -/
def sampleEmbeddingResponse : EmbeddingResponse :=
  { id := "emb1"
    data := [{ index := 0, embedding := [1, 0] }]
    model := "e1"
    usage := sampleUsage }

/-- A sample embedding adapter that accepts every request. -/
def okEmbeddingProvider : EmbeddingProviderModel String String :=
  { validate_embedding_request := fun _ => []
    convert_embedding_request := fun r => r.model
    convert_embedding_response := fun _ _ => Except.ok sampleEmbeddingResponse
    convert_error := fun _ => mappedProviderError }

/-- A sample embedding adapter that rejects every request. -/
def badEmbeddingProvider : EmbeddingProviderModel String String :=
  { okEmbeddingProvider with validate_embedding_request := fun _ => ["boom"] }

/-- A sample universal speech request. -/
def sampleSpeechRequest : SpeechRequest :=
  { model := "s1", input := "hi", voice := Voice.neutral }

/-- A sample universal speech response. -/
def sampleSpeechResponse : SpeechResponse :=
  { id := "sp1"
    audio := [0, 1]
    duration := 1
    format := AudioFormat.mp3
    metadata := sampleMetadata }

/-- A sample speech adapter that accepts every request. -/
def okSpeechProvider : SpeechProviderModel String String :=
  { validate_speech_request := fun _ => []
    convert_speech_request := fun r => r.model
    convert_speech_response := fun _ _ => Except.ok sampleSpeechResponse
    convert_error := fun _ => mappedProviderError }

/-- A sample speech adapter that rejects every request. -/
def badSpeechProvider : SpeechProviderModel String String :=
  { okSpeechProvider with validate_speech_request := fun _ => ["boom"] }

/-- The string value of a `ContentType` enum member. -/
def ContentType.value : ContentType → String
  | ContentType.text => "text"
  | ContentType.image => "image"
  | ContentType.pdf => "pdf"
  | ContentType.video => "video"
  | ContentType.audio => "audio"

/-- An input dict for the `MediaSource` model with the given field values;
absent optional fields are omitted from the dict. -/
def mediaSourceDict (ty : ContentType) (mime : String) (d u p : Option String) :
    List (String × PyVal) :=
  [("type", PyVal.str ty.value), ("mime_type", PyVal.str mime)]
    ++ (match d with | some s => [("data", PyVal.str s)] | Option.none => [])
    ++ (match u with | some s => [("url", PyVal.str s)] | Option.none => [])
    ++ (match p with | some s => [("path", PyVal.str s)] | Option.none => [])

/-- A non-terminal streaming chunk carrying the text delta `"hel"`. -/
def chunkA : ChatStreamResponse :=
  { id := "r1"
    delta := Sum.inl { type := ContentType.text, text := some "hel" } }

/-- The terminal streaming chunk: text delta `"lo"`, final usage, `done`. -/
def chunkFin : ChatStreamResponse :=
  { id := "r1"
    delta := Sum.inl { type := ContentType.text, text := some "lo" }
    metadata := some sampleMetadata
    done := true }

/-- The dual-set `MediaSource` value of the C4 counterexample. -/
def dualSetMediaSource : MediaSource :=
  { type := ContentType.image
    mime_type := "image/png"
    data := some "QUJD"
    url := some "https://x.example/a.png" }

/-!
# Theorems

One theorem per claim of the specification audit, with witnesses for
theorems that carry hypotheses and counterexamples where the claim fails on
the code.
-/

/-- C5 counterexample: with no chat repository configured, `LLMService.complete`
raises the builtin `NotImplementedError`, which is not a member of the
`LLMError` taxonomy — so the claimed `UnsupportedOperationError` outcome does
not hold. -/
theorem C5_counterexample :
    LLMService.complete {} sampleRequest =
      (Except.error (Exc.notImplemented "Chat completion not supported"), []) ∧
    (Exc.notImplemented "Chat completion not supported").isLLMError = false :=
  ⟨rfl, rfl⟩

/-- C5 (amended): for every `LLMService` whose chat (respectively embedding,
speech) repository is absent, `complete` (respectively `embed`, `synthesize`)
raises the builtin `NotImplementedError` with a "not supported" message — not
an `UnsupportedOperationError` of the `LLMError` taxonomy — and no repository
operation is invoked (the event trace is empty). -/
theorem C5_missing_repo_raises_not_implemented :
    (∀ (s : LLMService) (request : ChatRequest), s.chat_repo = Option.none →
      s.complete request =
        (Except.error (Exc.notImplemented "Chat completion not supported"), [])) ∧
    (∀ (s : LLMService) (request : EmbeddingRequest),
      s.embedding_repo = Option.none →
      s.embed request =
        (Except.error (Exc.notImplemented "Embeddings not supported"), [])) ∧
    (∀ (s : LLMService) (request : SpeechRequest), s.speech_repo = Option.none →
      s.synthesize request =
        (Except.error (Exc.notImplemented "Speech synthesis not supported"), [])) := by
  refine ⟨fun s request h => ?_, fun s request h => ?_, fun s request h => ?_⟩
  · simp [LLMService.complete, h]
  · simp [LLMService.embed, h]
  · simp [LLMService.synthesize, h]

/-- C5 witness: the amended theorem applied to the empty service. -/
theorem C5_witness :
    ({} : LLMService).chat_repo = Option.none ∧
    LLMService.complete {} sampleRequest =
      (Except.error (Exc.notImplemented "Chat completion not supported"), []) :=
  ⟨rfl, C5_missing_repo_raises_not_implemented.1 {} sampleRequest rfl⟩

/-- C6: on every dispatch through the validating dispatcher variant
(`repositories/base_new.py`, and the Gemini override) whose `api_key` is
missing (`None`) or empty, the call raises `ConfigurationError` of the
`LLMError` taxonomy and the transport collaborator is never invoked: the
event trace is exactly `[configCheck]`. -/
theorem C6_missing_credential_yields_configuration_error :
    (∀ {Native Raw : Type} (self : base_new.ChatRepository Native Raw)
        (cfg : ProviderConfig) (t : Transport Native Raw) (request : ChatRequest),
      apiKeyFalsy self.api_key = true →
      self.complete cfg t request =
        (Except.error (Exc.llm LLMErrorKind.configuration
          { message := "API key not configured for " ++ cfg.provider_name
            provider := cfg.provider_name }), [Event.configCheck]) ∧
      ((self.complete cfg t request).snd.any Event.isTransportCall) = false) ∧
    (∀ {Native Raw : Type} (self : base_new.EmbeddingRepository Native Raw)
        (cfg : ProviderConfig) (t : Transport Native Raw)
        (request : EmbeddingRequest),
      apiKeyFalsy self.api_key = true →
      self.embed cfg t request =
        (Except.error (Exc.llm LLMErrorKind.configuration
          { message := "API key not configured for " ++ cfg.provider_name
            provider := cfg.provider_name }), [Event.configCheck]) ∧
      ((self.embed cfg t request).snd.any Event.isTransportCall) = false) ∧
    (∀ {Native Raw : Type} (self : base_new.SpeechRepository Native Raw)
        (cfg : ProviderConfig) (t : Transport Native Raw)
        (request : SpeechRequest),
      apiKeyFalsy self.api_key = true →
      self.synthesize cfg t request =
        (Except.error (Exc.llm LLMErrorKind.configuration
          { message := "API key not configured for " ++ cfg.provider_name
            provider := cfg.provider_name }), [Event.configCheck]) ∧
      ((self.synthesize cfg t request).snd.any Event.isTransportCall) = false) ∧
    (∀ {Native Raw : Type} (self : gemini.GeminiChatRepository Native Raw)
        (t : Transport Native Raw) (request : ChatRequest),
      apiKeyFalsy self.api_key = true →
      self.complete t request =
        (Except.error (Exc.llm LLMErrorKind.configuration
          { message := "API key not configured for " ++ gemini.provider_name
            provider := gemini.provider_name }), [Event.configCheck]) ∧
      ((self.complete t request).snd.any Event.isTransportCall) = false) := by
  refine ⟨fun self cfg t request h => ?_, fun self cfg t request h => ?_,
    fun self cfg t request h => ?_, fun self t request h => ?_⟩
  · simp [base_new.ChatRepository.complete, validate_configuration, h,
      Event.isTransportCall]
  · simp [base_new.EmbeddingRepository.embed, validate_configuration, h,
      Event.isTransportCall]
  · simp [base_new.SpeechRepository.synthesize, validate_configuration, h,
      Event.isTransportCall]
  · simp [gemini.GeminiChatRepository.complete, validate_configuration, h,
      Event.isTransportCall]

/-- C6 witness: the theorem's chat part applied to a repository with an
absent API key. -/
theorem C6_witness :
    apiKeyFalsy (Option.none : Option String) = true ∧
    (base_new.ChatRepository.mk okChatProvider Option.none).complete cfg0
        okTransport sampleRequest =
      (Except.error (Exc.llm LLMErrorKind.configuration
        { message := "API key not configured for " ++ cfg0.provider_name
          provider := cfg0.provider_name }), [Event.configCheck]) :=
  ⟨rfl,
    (C6_missing_credential_yields_configuration_error.1
      (base_new.ChatRepository.mk okChatProvider Option.none) cfg0 okTransport
      sampleRequest rfl).1⟩

/-- C9: the `ChatRepository` of `repositories/base.py` stores only the
adapter on construction (its `api_key` attribute stays unset and no API-key
lookup happens), its `complete` never performs the configuration check, and —
whenever the bound adapter's `map-error` never produces a
`ConfigurationError` — no call can surface a `ConfigurationError`, whatever
the configuration state. -/
theorem C9_base_variant_never_configuration_error :
    (∀ {Native Raw : Type} (p : ChatProviderModel Native Raw),
      base.ChatRepository.init p =
        { provider := p, api_key := Option.none }) ∧
    (∀ {Native Raw : Type} (self : base.ChatRepository Native Raw)
        (cfg : ProviderConfig) (t : Transport Native Raw) (request : ChatRequest),
      Event.configCheck ∉ (self.complete cfg t request).snd) ∧
    (∀ {Native Raw : Type} (self : base.ChatRepository Native Raw)
        (cfg : ProviderConfig) (t : Transport Native Raw) (request : ChatRequest),
      (∀ e, (self.provider.convert_error e).isConfigurationError = false) →
      ∀ e', (self.complete cfg t request).fst = Except.error e' →
        e'.isConfigurationError = false) := by
  refine ⟨fun p => rfl, fun self cfg t request => ?_,
    fun self cfg t request hmap e' he => ?_⟩
  · unfold base.ChatRepository.complete
    dsimp only
    split
    · simp
    · split
      · simp
      · split <;> simp
  · unfold base.ChatRepository.complete at he
    dsimp only at he
    split at he
    · simp at he
      rw [← he]
      rfl
    · split at he
      · simp at he
        rw [← he]
        exact hmap _
      · split at he
        · simp at he
          rw [← he]
          exact hmap _
        · simp at he

/-- C1 counterexample: in the dispatcher variant of `repositories/base.py`, a
non-empty validation result raises the builtin `ValueError`, which is not a
Validation error of the `LLMError` taxonomy. -/
theorem C1_counterexample :
    badChatProvider.validate_chat_request sampleRequest = ["boom"] ∧
    (base.ChatRepository.mk badChatProvider Option.none).complete cfg0
        okTransport sampleRequest =
      (Except.error (Exc.valueError ["boom"]), [Event.validateCall]) ∧
    (Exc.valueError ["boom"]).isLLMError = false :=
  ⟨rfl, rfl, rfl⟩

/-- C1 (amended): in the `repositories/base.py` dispatcher a non-empty
validation result short-circuits with a plain builtin `ValueError` carrying
the problem list — not a Validation error of the `LLMError` taxonomy — and
neither the request converter nor the transport collaborator is invoked
(likewise for embedding and speech).  The validating variant
(`repositories/base_new.py`) never even reaches adapter validation: once the
configuration check passes, its `isinstance` capability test raises a builtin
`TypeError` (the capability Protocols are not `@runtime_checkable`), so it
never raises `ValidationError` and never invokes the validator, the converter
or the transport. -/
theorem C1_validation_short_circuits :
    (∀ {Native Raw : Type} (self : base.ChatRepository Native Raw)
        (cfg : ProviderConfig) (t : Transport Native Raw) (request : ChatRequest),
      (self.provider.validate_chat_request request).isEmpty = false →
      self.complete cfg t request =
        (Except.error (Exc.valueError (self.provider.validate_chat_request request)),
         [Event.validateCall]) ∧
      (Exc.valueError (self.provider.validate_chat_request request)).isLLMError
        = false ∧
      Event.convertRequest ∉ (self.complete cfg t request).snd ∧
      ((self.complete cfg t request).snd.any Event.isTransportCall) = false) ∧
    (∀ {Native Raw : Type} (self : base.EmbeddingRepository Native Raw)
        (cfg : ProviderConfig) (t : Transport Native Raw)
        (request : EmbeddingRequest),
      (self.provider.validate_embedding_request request).isEmpty = false →
      self.embed cfg t request =
        (Except.error
          (Exc.valueError (self.provider.validate_embedding_request request)),
         [Event.validateCall]) ∧
      Event.convertRequest ∉ (self.embed cfg t request).snd ∧
      ((self.embed cfg t request).snd.any Event.isTransportCall) = false) ∧
    (∀ {Native Raw : Type} (self : base.SpeechRepository Native Raw)
        (cfg : ProviderConfig) (t : Transport Native Raw)
        (request : SpeechRequest),
      (self.provider.validate_speech_request request).isEmpty = false →
      self.synthesize cfg t request =
        (Except.error
          (Exc.valueError (self.provider.validate_speech_request request)),
         [Event.validateCall]) ∧
      Event.convertRequest ∉ (self.synthesize cfg t request).snd ∧
      ((self.synthesize cfg t request).snd.any Event.isTransportCall) = false) ∧
    (∀ {Native Raw : Type} (self : base_new.ChatRepository Native Raw)
        (cfg : ProviderConfig) (t : Transport Native Raw) (request : ChatRequest),
      apiKeyFalsy self.api_key = false →
      self.complete cfg t request =
        (Except.error (Exc.typeError runtimeCheckableTypeErrorMsg),
         [Event.configCheck, Event.instanceCheck]) ∧
      (Exc.typeError runtimeCheckableTypeErrorMsg).isLLMError = false ∧
      Event.validateCall ∉ (self.complete cfg t request).snd ∧
      Event.convertRequest ∉ (self.complete cfg t request).snd ∧
      ((self.complete cfg t request).snd.any Event.isTransportCall) = false) ∧
    (∀ {Native Raw : Type} (self : base_new.EmbeddingRepository Native Raw)
        (cfg : ProviderConfig) (t : Transport Native Raw)
        (request : EmbeddingRequest),
      apiKeyFalsy self.api_key = false →
      self.embed cfg t request =
        (Except.error (Exc.typeError runtimeCheckableTypeErrorMsg),
         [Event.configCheck, Event.instanceCheck]) ∧
      Event.validateCall ∉ (self.embed cfg t request).snd ∧
      Event.convertRequest ∉ (self.embed cfg t request).snd ∧
      ((self.embed cfg t request).snd.any Event.isTransportCall) = false) ∧
    (∀ {Native Raw : Type} (self : base_new.SpeechRepository Native Raw)
        (cfg : ProviderConfig) (t : Transport Native Raw)
        (request : SpeechRequest),
      apiKeyFalsy self.api_key = false →
      self.synthesize cfg t request =
        (Except.error (Exc.typeError runtimeCheckableTypeErrorMsg),
         [Event.configCheck, Event.instanceCheck]) ∧
      Event.validateCall ∉ (self.synthesize cfg t request).snd ∧
      Event.convertRequest ∉ (self.synthesize cfg t request).snd ∧
      ((self.synthesize cfg t request).snd.any Event.isTransportCall) = false) := by
  refine ⟨fun self cfg t request hv => ?_, fun self cfg t request hv => ?_,
    fun self cfg t request hv => ?_, fun self cfg t request hk => ?_,
    fun self cfg t request hk => ?_, fun self cfg t request hk => ?_⟩
  · simp [base.ChatRepository.complete, hv, Event.isTransportCall, Exc.isLLMError]
  · simp [base.EmbeddingRepository.embed, hv, Event.isTransportCall]
  · simp [base.SpeechRepository.synthesize, hv, Event.isTransportCall]
  · simp [base_new.ChatRepository.complete, validate_configuration, hk,
      Event.isTransportCall, Exc.isLLMError]
  · simp [base_new.EmbeddingRepository.embed, validate_configuration, hk,
      Event.isTransportCall]
  · simp [base_new.SpeechRepository.synthesize, validate_configuration, hk,
      Event.isTransportCall]

/-- C1 witness: both variants at an adapter that rejects the sample request —
`base.py` raises the `ValueError`, and (separately) the validating variant
with a truthy key raises the `TypeError` at its capability check. -/
theorem C1_witness :
    (badChatProvider.validate_chat_request sampleRequest).isEmpty = false ∧
    (base.ChatRepository.mk badChatProvider Option.none).complete cfg0
        okTransport sampleRequest =
      (Except.error (Exc.valueError ["boom"]), [Event.validateCall]) ∧
    apiKeyFalsy (some "k1" : Option String) = false ∧
    (base_new.ChatRepository.mk badChatProvider (some "k1")).complete cfg0
        okTransport sampleRequest =
      (Except.error (Exc.typeError runtimeCheckableTypeErrorMsg),
       [Event.configCheck, Event.instanceCheck]) :=
  ⟨rfl,
    (C1_validation_short_circuits.1
      (base.ChatRepository.mk badChatProvider Option.none) cfg0 okTransport
      sampleRequest rfl).1,
    rfl,
    (C1_validation_short_circuits.2.2.2.1
      (base_new.ChatRepository.mk badChatProvider (some "k1")) cfg0 okTransport
      sampleRequest rfl).1⟩

/-- C7 counterexample: at one concrete request, under a valid configuration
and a succeeding transport, the `repositories/base.py` variant returns the
converted response while the `repositories/base_new.py` variant raises a
builtin `TypeError` at its `isinstance` capability check — the variants are
not behaviourally equal, and the `TypeError` is not even in the `LLMError`
taxonomy. -/
theorem C7_counterexample :
    apiKeyFalsy (some "k1" : Option String) = false ∧
    ((base.ChatRepository.mk okChatProvider (some "k1")).complete cfg0
        okTransport sampleRequest).fst = Except.ok sampleResponse ∧
    ((base_new.ChatRepository.mk okChatProvider (some "k1")).complete cfg0
        okTransport sampleRequest).fst =
      Except.error (Exc.typeError runtimeCheckableTypeErrorMsg) ∧
    (Except.ok sampleResponse : Except Exc ChatResponse) ≠
      Except.error (Exc.typeError runtimeCheckableTypeErrorMsg) ∧
    (Exc.typeError runtimeCheckableTypeErrorMsg).isLLMError = false :=
  ⟨rfl, rfl, rfl, by simp, rfl⟩

/-- C7 (amended): the two chat dispatcher variants are not behaviourally
equal.  Under a valid configuration, `repositories/base_new.py`'s `complete`
raises a builtin `TypeError` at its `isinstance` capability check on every
request — before adapter validation, so it never returns a response, never
raises `ValidationError`, and never invokes the transport — while
`repositories/base.py`'s `complete` runs the
validate → convert → transport → convert-back pipeline; whenever the
`base.py` variant succeeds, the two results differ. -/
theorem C7_variants_not_equivalent :
    ∀ {Native Raw : Type} (p : ChatProviderModel Native Raw)
      (key : Option String) (cfg : ProviderConfig) (t : Transport Native Raw)
      (request : ChatRequest),
      apiKeyFalsy key = false →
      ((base_new.ChatRepository.mk p key).complete cfg t request =
        (Except.error (Exc.typeError runtimeCheckableTypeErrorMsg),
         [Event.configCheck, Event.instanceCheck])) ∧
      (∀ (resp : ChatResponse),
        ((base.ChatRepository.mk p key).complete cfg t request).fst =
          Except.ok resp →
        ((base.ChatRepository.mk p key).complete cfg t request).fst ≠
          ((base_new.ChatRepository.mk p key).complete cfg t request).fst) := by
  intro Native Raw p key cfg t request hk
  have hnew : (base_new.ChatRepository.mk p key).complete cfg t request =
      (Except.error (Exc.typeError runtimeCheckableTypeErrorMsg),
       [Event.configCheck, Event.instanceCheck]) := by
    simp [base_new.ChatRepository.complete, validate_configuration, hk]
  refine ⟨hnew, fun resp hok => ?_⟩
  rw [hok, hnew]
  simp

/-- C7 witness: the divergence at a concrete accepting adapter and a
succeeding transport. -/
theorem C7_witness :
    apiKeyFalsy (some "k1" : Option String) = false ∧
    ((base.ChatRepository.mk okChatProvider (some "k1")).complete cfg0
        okTransport sampleRequest).fst = Except.ok sampleResponse ∧
    ((base.ChatRepository.mk okChatProvider (some "k1")).complete cfg0
        okTransport sampleRequest).fst ≠
      ((base_new.ChatRepository.mk okChatProvider (some "k1")).complete cfg0
        okTransport sampleRequest).fst :=
  ⟨rfl, rfl,
    (C7_variants_not_equivalent okChatProvider (some "k1") cfg0 okTransport
      sampleRequest rfl).2 sampleResponse rfl⟩

/-- C2: in the `repositories/base.py` dispatcher (all three operations), once
validation has passed, every exception raised by the transport collaborator —
and every exception raised while converting its raw response — leaves the
dispatcher exactly as the adapter's `convert_error` image of that exception,
and any error that leaves the dispatcher at all is such an image: the raw
exception never escapes unmapped.  In the `repositories/base_new.py` variant
the transport collaborator is never invoked at all (every call past the
configuration check raises `TypeError` at the `isinstance` capability test,
before the `try` block), so no transport-raised exception ever exists there
and the claim holds vacuously. -/
theorem C2_transport_errors_routed_through_map_error :
    (∀ {Native Raw : Type} (self : base.ChatRepository Native Raw)
        (cfg : ProviderConfig) (request : ChatRequest),
      self.provider.validate_chat_request request = [] →
      (∀ e, (self.complete cfg (fun _ => Except.error e) request).fst =
          Except.error (self.provider.convert_error e)) ∧
      (∀ (raw : Raw) e,
        self.provider.convert_chat_response raw request = Except.error e →
        (self.complete cfg (fun _ => Except.ok raw) request).fst =
          Except.error (self.provider.convert_error e)) ∧
      (∀ (t : Transport Native Raw) e',
        (self.complete cfg t request).fst = Except.error e' →
        ∃ e, e' = self.provider.convert_error e ∧
          ((∃ rec, t rec = Except.error e) ∨
           (∃ raw, self.provider.convert_chat_response raw request =
              Except.error e)))) ∧
    (∀ {Native Raw : Type} (self : base.EmbeddingRepository Native Raw)
        (cfg : ProviderConfig) (request : EmbeddingRequest),
      self.provider.validate_embedding_request request = [] →
      (∀ e, (self.embed cfg (fun _ => Except.error e) request).fst =
          Except.error (self.provider.convert_error e)) ∧
      (∀ (raw : Raw) e,
        self.provider.convert_embedding_response raw request = Except.error e →
        (self.embed cfg (fun _ => Except.ok raw) request).fst =
          Except.error (self.provider.convert_error e)) ∧
      (∀ (t : Transport Native Raw) e',
        (self.embed cfg t request).fst = Except.error e' →
        ∃ e, e' = self.provider.convert_error e ∧
          ((∃ rec, t rec = Except.error e) ∨
           (∃ raw, self.provider.convert_embedding_response raw request =
              Except.error e)))) ∧
    (∀ {Native Raw : Type} (self : base.SpeechRepository Native Raw)
        (cfg : ProviderConfig) (request : SpeechRequest),
      self.provider.validate_speech_request request = [] →
      (∀ e, (self.synthesize cfg (fun _ => Except.error e) request).fst =
          Except.error (self.provider.convert_error e)) ∧
      (∀ (raw : Raw) e,
        self.provider.convert_speech_response raw request = Except.error e →
        (self.synthesize cfg (fun _ => Except.ok raw) request).fst =
          Except.error (self.provider.convert_error e)) ∧
      (∀ (t : Transport Native Raw) e',
        (self.synthesize cfg t request).fst = Except.error e' →
        ∃ e, e' = self.provider.convert_error e ∧
          ((∃ rec, t rec = Except.error e) ∨
           (∃ raw, self.provider.convert_speech_response raw request =
              Except.error e)))) ∧
    (∀ {Native Raw : Type} (self : base_new.ChatRepository Native Raw)
        (cfg : ProviderConfig) (t : Transport Native Raw) (request : ChatRequest),
      ((self.complete cfg t request).snd.any Event.isTransportCall) = false) ∧
    (∀ {Native Raw : Type} (self : base_new.EmbeddingRepository Native Raw)
        (cfg : ProviderConfig) (t : Transport Native Raw)
        (request : EmbeddingRequest),
      ((self.embed cfg t request).snd.any Event.isTransportCall) = false) ∧
    (∀ {Native Raw : Type} (self : base_new.SpeechRepository Native Raw)
        (cfg : ProviderConfig) (t : Transport Native Raw)
        (request : SpeechRequest),
      ((self.synthesize cfg t request).snd.any Event.isTransportCall) = false) := by
  refine ⟨?_, ?_, ?_, ?_, ?_, ?_⟩
  · intro Native Raw self cfg request hv
    refine ⟨fun e => ?_, fun raw e hconv => ?_, fun t e' he => ?_⟩
    · simp [base.ChatRepository.complete, hv]
    · simp [base.ChatRepository.complete, hv, hconv]
    · unfold base.ChatRepository.complete at he
      simp only [hv, List.isEmpty_nil, Bool.not_true, Bool.false_eq_true,
        if_false] at he
      split at he
      · rename_i e heq
        simp at he
        exact ⟨e, he.symm, Or.inl ⟨_, heq⟩⟩
      · rename_i raw heq
        split at he
        · rename_i e heq2
          simp at he
          exact ⟨e, he.symm, Or.inr ⟨raw, heq2⟩⟩
        · simp at he
  · intro Native Raw self cfg request hv
    refine ⟨fun e => ?_, fun raw e hconv => ?_, fun t e' he => ?_⟩
    · simp [base.EmbeddingRepository.embed, hv]
    · simp [base.EmbeddingRepository.embed, hv, hconv]
    · unfold base.EmbeddingRepository.embed at he
      simp only [hv, List.isEmpty_nil, Bool.not_true, Bool.false_eq_true,
        if_false] at he
      split at he
      · rename_i e heq
        simp at he
        exact ⟨e, he.symm, Or.inl ⟨_, heq⟩⟩
      · rename_i raw heq
        split at he
        · rename_i e heq2
          simp at he
          exact ⟨e, he.symm, Or.inr ⟨raw, heq2⟩⟩
        · simp at he
  · intro Native Raw self cfg request hv
    refine ⟨fun e => ?_, fun raw e hconv => ?_, fun t e' he => ?_⟩
    · simp [base.SpeechRepository.synthesize, hv]
    · simp [base.SpeechRepository.synthesize, hv, hconv]
    · unfold base.SpeechRepository.synthesize at he
      simp only [hv, List.isEmpty_nil, Bool.not_true, Bool.false_eq_true,
        if_false] at he
      split at he
      · rename_i e heq
        simp at he
        exact ⟨e, he.symm, Or.inl ⟨_, heq⟩⟩
      · rename_i raw heq
        split at he
        · rename_i e heq2
          simp at he
          exact ⟨e, he.symm, Or.inr ⟨raw, heq2⟩⟩
        · simp at he
  · intro Native Raw self cfg t request
    unfold base_new.ChatRepository.complete
    split <;> simp [Event.isTransportCall]
  · intro Native Raw self cfg t request
    unfold base_new.EmbeddingRepository.embed
    split <;> simp [Event.isTransportCall]
  · intro Native Raw self cfg t request
    unfold base_new.SpeechRepository.synthesize
    split <;> simp [Event.isTransportCall]

/-- C2 witness: the first part applied to a concrete repository with a
failing transport: the surfaced error is the adapter's mapped error. -/
theorem C2_witness :
    okChatProvider.validate_chat_request sampleRequest = [] ∧
    ((base.ChatRepository.mk okChatProvider Option.none).complete cfg0
        (fun _ => Except.error (Exc.transportFailure "down")) sampleRequest).fst =
      Except.error (okChatProvider.convert_error (Exc.transportFailure "down")) :=
  ⟨rfl,
    (C2_transport_errors_routed_through_map_error.1
      (base.ChatRepository.mk okChatProvider Option.none) cfg0 sampleRequest
      rfl).1 (Exc.transportFailure "down")⟩

/-- C4 counterexample: an input with both `data` and `url` set passes
`MediaSource` model validation — the claimed rejection of multi-set source
fields does not happen (the model has no mutual-exclusion validator). -/
theorem C4_counterexample :
    MediaSource.model_validate
        [("type", PyVal.str "image"), ("mime_type", PyVal.str "image/png"),
         ("data", PyVal.str "QUJD"),
         ("url", PyVal.str "https://x.example/a.png")] =
      Except.ok dualSetMediaSource ∧
    dualSetMediaSource.sourcesSet = 2 :=
  ⟨rfl, rfl⟩

/-- C4 (amended): `MediaSource` model validation checks only field types and
forbids extra keys; it enforces no relation between `data`, `url` and `path`,
so every combination of the three source fields — none set, one set, or
several set — is accepted. -/
theorem C4_media_source_no_mutual_exclusion :
    ∀ (ty : ContentType) (mime : String) (d u p : Option String),
      MediaSource.model_validate (mediaSourceDict ty mime d u p) =
        Except.ok { type := ty, mime_type := mime, data := d, url := u, path := p } := by
  intro ty mime d u p
  cases ty <;> cases d <;> cases u <;> cases p <;> rfl

/-- C8: the Gemini chat dispatcher as written never issues the claimed
transport request.  Granting `repositories/gemini.py` its missing imports
(the module itself fails with `NameError` before the class exists), every
call past the configuration check raises a builtin `TypeError` at the
`isinstance` capability check of line 49, so the transport collaborator is
never invoked and the `{base_url}/{version}/models/{model}:generateContent`
URL, the `key` query parameter and the Content-Type-only headers of
lines 64–72 are dead code — evaluated here at the concrete failing input,
and shown transport-free for every input. -/
theorem C8_gemini_dispatch_never_reaches_transport :
    (gemini.GeminiChatRepository.mk okChatProvider (some "k1") "v1").complete
        okTransport sampleRequest =
      (Except.error (Exc.typeError runtimeCheckableTypeErrorMsg),
       [Event.configCheck, Event.instanceCheck]) ∧
    (Exc.typeError runtimeCheckableTypeErrorMsg).isLLMError = false ∧
    (∀ {Native Raw : Type} (self : gemini.GeminiChatRepository Native Raw)
        (t : Transport Native Raw) (request : ChatRequest),
      ((self.complete t request).snd.any Event.isTransportCall) = false) := by
  refine ⟨rfl, rfl, ?_⟩
  intro Native Raw self t request
  unfold gemini.GeminiChatRepository.complete
  split <;> simp [Event.isTransportCall]

/-- Folding text deltas from an arbitrary accumulator prefixes the
accumulator to the concatenation. -/
theorem chunksText_from (cs : List ChatStreamResponse) :
    ∀ (a : String),
      List.foldl (fun acc c => acc ++ chunkTextDelta c) a cs =
        a ++ chunksText cs := by
  induction cs with
  | nil =>
    intro a
    simp only [chunksText, List.foldl_nil]
    rw [String.append_empty]
  | cons c cs ih =>
    intro a
    simp only [chunksText, List.foldl_cons]
    rw [ih, ih, String.empty_append, String.append_assoc]

/-- Text of one chunk plus the rest. -/
theorem chunksText_cons (c : ChatStreamResponse) (cs : List ChatStreamResponse) :
    chunksText (c :: cs) = chunkTextDelta c ++ chunksText cs := by
  have h := chunksText_from cs ("" ++ chunkTextDelta c)
  rw [String.empty_append] at h
  exact h

/-- Text of a chunk sequence with one chunk appended. -/
theorem chunksText_append_single (cs : List ChatStreamResponse)
    (c : ChatStreamResponse) :
    chunksText (cs ++ [c]) = chunksText cs ++ chunkTextDelta c := by
  simp only [chunksText, List.foldl_append, List.foldl_cons, List.foldl_nil]

/-- Merging with an absent left operand is the identity. -/
theorem usageMerge_none (b : Option Usage) :
    usageMerge Option.none b = b := by
  cases b <;> rfl

/-- `usageMerge` is associative. -/
theorem usageMerge_assoc (a b c : Option Usage) :
    usageMerge (usageMerge a b) c = usageMerge a (usageMerge b c) := by
  cases c <;> cases b <;> rfl

/-- Folding usage reports from an arbitrary accumulator merges the
accumulator on the left. -/
theorem chunksUsage_from (cs : List ChatStreamResponse) :
    ∀ (a : Option Usage),
      List.foldl (fun acc c => usageMerge acc (chunkUsage c)) a cs =
        usageMerge a (chunksUsage cs) := by
  induction cs with
  | nil =>
    intro a
    simp only [chunksUsage, List.foldl_nil]
    rfl
  | cons c cs ih =>
    intro a
    simp only [chunksUsage, List.foldl_cons]
    rw [ih, ih, usageMerge_none, usageMerge_assoc]

/-- Usage of one chunk merged before the rest. -/
theorem chunksUsage_cons (c : ChatStreamResponse) (cs : List ChatStreamResponse) :
    chunksUsage (c :: cs) = usageMerge (chunkUsage c) (chunksUsage cs) := by
  have h := chunksUsage_from cs (usageMerge Option.none (chunkUsage c))
  nth_rewrite 2 [usageMerge_none] at h
  exact h

/-- Usage of a chunk sequence with one chunk appended. -/
theorem chunksUsage_append_single (cs : List ChatStreamResponse)
    (c : ChatStreamResponse) :
    chunksUsage (cs ++ [c]) = usageMerge (chunksUsage cs) (chunkUsage c) := by
  simp only [chunksUsage, List.foldl_append, List.foldl_cons, List.foldl_nil]

/-- One reconstruction step from a not-yet-terminal state always succeeds and
accumulates the chunk's text delta and reported usage. -/
theorem reconStep_not_done (s : ReconState) (c : ChatStreamResponse)
    (hs : s.done = false) :
    ∃ s1, reconStep s c = Except.ok s1 ∧ s1.id = s.id ∧ s1.done = c.done ∧
      s1.text = s.text ++ chunkTextDelta c ∧
      s1.usage = usageMerge s.usage (chunkUsage c) := by
  unfold reconStep
  rw [hs]
  exact ⟨_, rfl, rfl, rfl, rfl, rfl⟩

/-- Splitting a `reconFoldM` over a list append. -/
theorem reconFoldM_append (l1 l2 : List ChatStreamResponse) :
    ∀ (s : ReconState),
      reconFoldM s (l1 ++ l2) =
        (match reconFoldM s l1 with
         | Except.error e => Except.error e
         | Except.ok s1 => reconFoldM s1 l2) := by
  induction l1 with
  | nil => intro s; rfl
  | cons c cs ih =>
    intro s
    simp only [List.cons_append, reconFoldM]
    cases h : reconStep s c with
    | error e => rfl
    | ok s2 => exact ih s2

/-- Folding a sequence of non-terminal chunks from a non-terminal state
succeeds and accumulates concatenated text and last-reported usage. -/
theorem reconFoldM_no_done (body : List ChatStreamResponse) :
    ∀ (s : ReconState), s.done = false → (∀ c ∈ body, c.done = false) →
      ∃ s', reconFoldM s body = Except.ok s' ∧ s'.id = s.id ∧
        s'.done = false ∧ s'.text = s.text ++ chunksText body ∧
        s'.usage = usageMerge s.usage (chunksUsage body) := by
  induction body with
  | nil =>
    intro s hs _
    exact ⟨s, rfl, rfl, hs, (String.append_empty _).symm, rfl⟩
  | cons c cs ih =>
    intro s hs hall
    obtain ⟨s1, hstep, hid, hdone, htext, husage⟩ := reconStep_not_done s c hs
    have hcdone : c.done = false := hall c (by simp)
    obtain ⟨s', hfold, hid', hdone', htext', husage'⟩ :=
      ih s1 (hdone.trans hcdone) (fun x hx => hall x (by simp [hx]))
    refine ⟨s', ?_, hid'.trans hid, hdone', ?_, ?_⟩
    · simp only [reconFoldM, hstep]
      exact hfold
    · rw [htext', htext, chunksText_cons, String.append_assoc]
    · rw [husage', husage, chunksUsage_cons, usageMerge_assoc]

/-- The reconstructed response's concatenated text is the accumulator's. -/
theorem responseText_reconFinish (s : ReconState) :
    responseText (reconFinish s) = s.text := by
  simp only [reconFinish, responseText, List.foldl_cons, List.foldl_nil,
    Option.getD_some]
  rw [String.empty_append]

/-- The reconstructed response's usage is the accumulator's. -/
theorem responseUsage_reconFinish (s : ReconState) :
    responseUsage (reconFinish s) = s.usage := by
  cases hm : s.meta <;> simp [reconFinish, responseUsage, hm]

/-- C3: folding the ordered chunk sequence emitted for one request through
the Stream Reconstructor yields a `ChatResponse` whose concatenated text and
final `Usage` equal those of the non-streaming response for the same logical
completion (any scripted sequence whose text deltas concatenate to the
response's text and whose last reported usage is the response's usage), and
the fold treats a repeated terminal chunk after `done = true` as a
Provider-class protocol violation instead of merging it twice — both at the
single-step level and for a whole fold ending in a duplicated terminal
chunk. -/
theorem C3_stream_reconstruction_equivalence :
    (∀ (id0 : String) (body : List ChatStreamResponse)
        (fin : ChatStreamResponse) (r : ChatResponse),
      (∀ c ∈ body, c.done = false) → fin.done = true →
      chunksText (body ++ [fin]) = responseText r →
      chunksUsage (body ++ [fin]) = responseUsage r →
      ∃ resp, reconstruct id0 (body ++ [fin]) = Except.ok resp ∧
        responseText resp = responseText r ∧
        responseUsage resp = responseUsage r) ∧
    (∀ (s : ReconState) (c : ChatStreamResponse),
      s.done = true → c.done = true →
      reconStep s c = Except.error (Exc.llm LLMErrorKind.provider
        { message := "duplicate terminal chunk", provider := "stream" })) ∧
    (∀ (id0 : String) (body : List ChatStreamResponse)
        (fin : ChatStreamResponse),
      (∀ c ∈ body, c.done = false) → fin.done = true →
      reconFoldM { id := id0 } (body ++ [fin, fin]) =
        Except.error (Exc.llm LLMErrorKind.provider
          { message := "duplicate terminal chunk", provider := "stream" })) := by
  refine ⟨?_, ?_, ?_⟩
  · intro id0 body fin r hbody hfin htext husage
    obtain ⟨s', hfold, hid, hdone, htext', husage'⟩ :=
      reconFoldM_no_done body { id := id0 } rfl hbody
    obtain ⟨s2, hstep, hid2, hdone2, htext2, husage2⟩ :=
      reconStep_not_done s' fin hdone
    refine ⟨reconFinish s2, ?_, ?_, ?_⟩
    · unfold reconstruct
      rw [reconFoldM_append body [fin] _, hfold]
      simp only [reconFoldM, hstep]
    · rw [responseText_reconFinish, htext2, htext', ← htext,
        chunksText_append_single]
      dsimp only
      rw [String.empty_append]
    · rw [responseUsage_reconFinish, husage2, husage', ← husage,
        chunksUsage_append_single]
      dsimp only
      rw [usageMerge_none]
  · intro s c hs hc
    unfold reconStep
    rw [hs, hc]
    rfl
  · intro id0 body fin hbody hfin
    obtain ⟨s', hfold, hid, hdone, htext', husage'⟩ :=
      reconFoldM_no_done body { id := id0 } rfl hbody
    obtain ⟨s2, hstep, hid2, hdone2, htext2, husage2⟩ :=
      reconStep_not_done s' fin hdone
    have h2 : reconStep s2 fin = Except.error (Exc.llm LLMErrorKind.provider
        { message := "duplicate terminal chunk", provider := "stream" }) := by
      unfold reconStep
      rw [hdone2.trans hfin, hfin]
      rfl
    rw [reconFoldM_append body [fin, fin] _, hfold]
    simp only [reconFoldM, hstep, h2]

/-- C3 witness: the equivalence applied to a two-chunk script (`"hel"`, then
a terminal `"lo"` carrying the final usage) of the sample non-streaming
response. -/
theorem C3_witness :
    (∀ c ∈ [chunkA], c.done = false) ∧ chunkFin.done = true ∧
    chunksText ([chunkA] ++ [chunkFin]) = responseText sampleResponse ∧
    chunksUsage ([chunkA] ++ [chunkFin]) = responseUsage sampleResponse ∧
    (∃ resp, reconstruct "r1" ([chunkA] ++ [chunkFin]) = Except.ok resp ∧
      responseText resp = responseText sampleResponse ∧
      responseUsage resp = responseUsage sampleResponse) :=
  ⟨by intro c hc; simp only [List.mem_singleton] at hc; rw [hc]; rfl,
   rfl, rfl, rfl,
   C3_stream_reconstruction_equivalence.1 "r1" [chunkA] chunkFin sampleResponse
     (by intro c hc; simp only [List.mem_singleton] at hc; rw [hc]; rfl)
     rfl rfl rfl⟩

/-- Looking a key up in a masked dict gives the masked image of the original
lookup. -/
theorem lookupKey_maskEntries (d : List (String × PyVal)) (k : String) :
    lookupKey (maskEntries d) k =
      (lookupKey d k).map (fun v =>
        if isSensitiveKey k then PyVal.str "***" else maskValue v) := by
  induction d with
  | nil => rfl
  | cons kv rest ih =>
    obtain ⟨k1, v1⟩ := kv
    by_cases h : k1 = k
    · subst h
      simp [maskEntries, lookupKey]
    · simp [maskEntries, lookupKey, h, ih]

/-- `getPath` on a one-key path is a plain key lookup. -/
theorem getPath_singleton (d : List (String × PyVal)) (k : String) :
    getPath d [k] = lookupKey d k := by
  cases hl : lookupKey d k with
  | none => simp [getPath, hl]
  | some v => simp [getPath, hl]

/-- `getPath` on a longer path descends through the dict value at the head
key. -/
theorem getPath_cons_of_ne_nil (d : List (String × PyVal)) (x : String) :
    ∀ (ks : List String), ks ≠ [] →
      getPath d (x :: ks) =
        (match lookupKey d x with
         | some (PyVal.dict d2) => getPath d2 ks
         | _ => Option.none) := by
  intro ks hne
  cases ks with
  | nil => exact absurd rfl hne
  | cons a as =>
    cases hl : lookupKey d x with
    | none => simp [getPath, hl]
    | some v0 => cases v0 <;> simp [getPath, hl]

/-- Along a path of non-sensitive keys, a sensitive final key's value is
masked to `"***"`. -/
theorem mask_path_sensitive (p : List String) :
    ∀ (d : List (String × PyVal)) (k : String) (v : PyVal),
      (∀ x ∈ p, isSensitiveKey x = false) → isSensitiveKey k = true →
      getPath d (p ++ [k]) = some v →
      getPath (maskEntries d) (p ++ [k]) = some (PyVal.str "***") := by
  induction p with
  | nil =>
    intro d k v _ hk hget
    rw [List.nil_append, getPath_singleton] at hget
    rw [List.nil_append, getPath_singleton, lookupKey_maskEntries, hget]
    simp [hk]
  | cons x xs ih =>
    intro d k v hp hk hget
    rw [List.cons_append, getPath_cons_of_ne_nil _ _ _ (by simp)] at hget
    rw [List.cons_append, getPath_cons_of_ne_nil _ _ _ (by simp)]
    cases hl : lookupKey d x with
    | none =>
      rw [hl] at hget
      simp at hget
    | some v0 =>
      rw [hl] at hget
      cases v0 with
      | dict d2 =>
        have hx : isSensitiveKey x = false := hp x (by simp)
        rw [lookupKey_maskEntries, hl]
        simp only [Option.map_some', hx, Bool.false_eq_true, if_false,
          maskValue]
        exact ih d2 k v (fun y hy => hp y (by simp [hy])) hk hget
      | str s => simp at hget
      | int n => simp at hget
      | float q => simp at hget
      | bool b => simp at hget
      | none => simp at hget
      | list ys => simp at hget

/-- Along a path of non-sensitive keys, a non-sensitive final key's
non-dict value is returned unchanged. -/
theorem mask_path_nonsensitive (p : List String) :
    ∀ (d : List (String × PyVal)) (k : String) (v : PyVal),
      (∀ x ∈ p, isSensitiveKey x = false) → isSensitiveKey k = false →
      getPath d (p ++ [k]) = some v → (∀ d2, v ≠ PyVal.dict d2) →
      getPath (maskEntries d) (p ++ [k]) = some v := by
  induction p with
  | nil =>
    intro d k v _ hk hget hnd
    rw [List.nil_append, getPath_singleton] at hget
    rw [List.nil_append, getPath_singleton, lookupKey_maskEntries, hget]
    cases v with
    | dict d2 => exact absurd rfl (hnd d2)
    | str s => simp [hk, maskValue]
    | int n => simp [hk, maskValue]
    | float q => simp [hk, maskValue]
    | bool b => simp [hk, maskValue]
    | none => simp [hk, maskValue]
    | list ys => simp [hk, maskValue]
  | cons x xs ih =>
    intro d k v hp hk hget hnd
    rw [List.cons_append, getPath_cons_of_ne_nil _ _ _ (by simp)] at hget
    rw [List.cons_append, getPath_cons_of_ne_nil _ _ _ (by simp)]
    cases hl : lookupKey d x with
    | none =>
      rw [hl] at hget
      simp at hget
    | some v0 =>
      rw [hl] at hget
      cases v0 with
      | dict d2 =>
        have hx : isSensitiveKey x = false := hp x (by simp)
        rw [lookupKey_maskEntries, hl]
        simp only [Option.map_some', hx, Bool.false_eq_true, if_false,
          maskValue]
        exact ih d2 k v (fun y hy => hp y (by simp [hy])) hk hget hnd
      | str s => simp at hget
      | int n => simp at hget
      | float q => simp at hget
      | bool b => simp at hget
      | none => simp at hget
      | list ys => simp at hget

/-- C10: `mask_sensitive_data` replaces the value of every sensitive key
(lowercased name in `SENSITIVE_FIELDS`) with `"***"` at every directly-nested
dictionary depth, leaves every other (non-dict) entry unchanged — and in
particular returns list values verbatim, so dictionaries nested inside lists
keep their sensitive entries unmasked. -/
theorem C10_mask_sensitive_data_masks_nested_dict_keys :
    ∀ (d : List (String × PyVal)) (p : List String) (k : String),
      (∀ x ∈ p, isSensitiveKey x = false) →
      ((isSensitiveKey k = true → ∀ v, getPath d (p ++ [k]) = some v →
          getPath (mask_sensitive_data d) (p ++ [k]) =
            some (PyVal.str "***")) ∧
       (isSensitiveKey k = false → ∀ v, getPath d (p ++ [k]) = some v →
          (∀ d2, v ≠ PyVal.dict d2) →
          getPath (mask_sensitive_data d) (p ++ [k]) = some v) ∧
       (isSensitiveKey k = false → ∀ xs,
          getPath d (p ++ [k]) = some (PyVal.list xs) →
          getPath (mask_sensitive_data d) (p ++ [k]) =
            some (PyVal.list xs))) := by
  intro d p k hp
  refine ⟨fun hk v hget => ?_, fun hk v hget hnd => ?_, fun hk xs hget => ?_⟩
  · exact mask_path_sensitive p d k v hp hk hget
  · exact mask_path_nonsensitive p d k v hp hk hget hnd
  · exact mask_path_nonsensitive p d k (PyVal.list xs) hp hk hget
      (fun d2 h => PyVal.noConfusion h)

/-- C10 witness: a nested sensitive key is masked, while the same key inside
a list value survives unmasked. -/
theorem C10_witness :
    (∀ x ∈ (["config"] : List String), isSensitiveKey x = false) ∧
    isSensitiveKey "api_key" = true ∧
    getPath [("config", PyVal.dict [("api_key", PyVal.str "s3cr3t")]),
        ("items", PyVal.list [PyVal.dict [("token", PyVal.str "t0k")]])]
      (["config"] ++ ["api_key"]) = some (PyVal.str "s3cr3t") ∧
    getPath (mask_sensitive_data
        [("config", PyVal.dict [("api_key", PyVal.str "s3cr3t")]),
         ("items", PyVal.list [PyVal.dict [("token", PyVal.str "t0k")]])])
      (["config"] ++ ["api_key"]) = some (PyVal.str "***") ∧
    getPath (mask_sensitive_data
        [("config", PyVal.dict [("api_key", PyVal.str "s3cr3t")]),
         ("items", PyVal.list [PyVal.dict [("token", PyVal.str "t0k")]])])
      (([] : List String) ++ ["items"]) =
      some (PyVal.list [PyVal.dict [("token", PyVal.str "t0k")]]) := by
  refine ⟨?_, rfl, rfl, ?_, ?_⟩
  · intro x hx
    simp only [List.mem_singleton] at hx
    rw [hx]
    rfl
  · exact (C10_mask_sensitive_data_masks_nested_dict_keys
      [("config", PyVal.dict [("api_key", PyVal.str "s3cr3t")]),
       ("items", PyVal.list [PyVal.dict [("token", PyVal.str "t0k")]])]
      ["config"] "api_key"
      (by intro x hx; simp only [List.mem_singleton] at hx; rw [hx]; rfl)).1
      rfl (PyVal.str "s3cr3t") rfl
  · exact ((C10_mask_sensitive_data_masks_nested_dict_keys
      [("config", PyVal.dict [("api_key", PyVal.str "s3cr3t")]),
       ("items", PyVal.list [PyVal.dict [("token", PyVal.str "t0k")]])]
      [] "items" (by intro x hx; simp at hx)).2.2)
      rfl [PyVal.dict [("token", PyVal.str "t0k")]] rfl

/-- C9 witness: the theorem's third part applied to a concrete adapter whose
`map-error` yields a generic Provider error, under a failing transport. -/
theorem C9_witness :
    (∀ e, (okChatProvider.convert_error e).isConfigurationError = false) ∧
    ((base.ChatRepository.mk okChatProvider Option.none).complete cfg0
        (failTransport (Exc.transportFailure "down")) sampleRequest).fst =
      Except.error mappedProviderError ∧
    mappedProviderError.isConfigurationError = false :=
  ⟨fun _ => rfl, rfl,
    C9_base_variant_never_configuration_error.2.2
      (base.ChatRepository.mk okChatProvider Option.none) cfg0
      (failTransport (Exc.transportFailure "down")) sampleRequest
      (fun _ => rfl) mappedProviderError rfl⟩

end LLM
